import Mathlib

set_option maxRecDepth 10000

/-!
Shallow embedding of the E57 test-fixture generator scripts of this repository:
`src/create_test_e57_files.py` (namespace `CreateTestE57Files`),
`src/test_data/create_test_files.py` (namespace `TestDataCreateTestFiles`) and
`src/test_data/create_test_e57_codec_fixed.py` (namespace `CodecFixed`).
Byte strings are modelled as `List ℕ` (one natural per byte); all XML documents
emitted by the scripts are pure ASCII, so their UTF-8 byte sequences coincide
with their character sequences.
-/

/-- Bytes of `struct.pack('<I', n)`: 4 little-endian bytes. -/
def le32 (n : ℕ) : List ℕ :=
  [n % 256, n / 256 % 256, n / 256 ^ 2 % 256, n / 256 ^ 3 % 256]

/-- Bytes of `struct.pack('<Q', n)`: 8 little-endian bytes. -/
def le64 (n : ℕ) : List ℕ :=
  [n % 256, n / 256 % 256, n / 256 ^ 2 % 256, n / 256 ^ 3 % 256,
   n / 256 ^ 4 % 256, n / 256 ^ 5 % 256, n / 256 ^ 6 % 256, n / 256 ^ 7 % 256]

/-- Read the u64 little-endian field at byte offset `off`. -/
def readLE64 (bs : List ℕ) (off : ℕ) : ℕ :=
  bs.getD off 0 + 256 * bs.getD (off + 1) 0 + 256 ^ 2 * bs.getD (off + 2) 0 +
  256 ^ 3 * bs.getD (off + 3) 0 + 256 ^ 4 * bs.getD (off + 4) 0 +
  256 ^ 5 * bs.getD (off + 5) 0 + 256 ^ 6 * bs.getD (off + 6) 0 +
  256 ^ 7 * bs.getD (off + 7) 0

/-- Read the u32 little-endian field at byte offset `off`. -/
def readLE32 (bs : List ℕ) (off : ℕ) : ℕ :=
  bs.getD off 0 + 256 * bs.getD (off + 1) 0 + 256 ^ 2 * bs.getD (off + 2) 0 +
  256 ^ 3 * bs.getD (off + 3) 0

/-- In-place slice assignment `buf[off : off + repl.length] = repl`
(the semantics of `header[16:24] = ...` and of `struct.pack_into`). -/
def setBytes (l : List ℕ) (off : ℕ) (repl : List ℕ) : List ℕ :=
  l.take off ++ repl ++ l.drop (off + repl.length)

/-- UTF-8 bytes of an ASCII string (`s.encode('utf-8')`). -/
def strBytes (s : String) : List ℕ := s.data.map Char.toNat

/-- Base-2 logarithm (floor) with explicit fuel, enough fuel given for every
value below `2 ^ fuel`; structural so that the kernel evaluates it. -/
def lg2 : ℕ → ℕ → ℕ
  | 0, _ => 0
  | fuel + 1, n => if n ≤ 1 then 0 else lg2 fuel (n / 2) + 1

/-- IEEE-754 binary32 bit pattern of a nonnegative integer value, exact for
`n < 2 ^ 24`; models `struct.pack('<f', float(n))` for the coordinate values
used by the scripts. -/
def f32bits (n : ℕ) : ℕ :=
  if n = 0 then 0
  else (127 + lg2 32 n) * 2 ^ 23 + (n * 2 ^ 23 / 2 ^ lg2 32 n - 2 ^ 23)

/-- Bytes of `struct.pack('<f', float(n))`: 4 little-endian bytes of the binary32 encoding. -/
def pack_f32 (n : ℕ) : List ℕ := le32 (f32bits n)

/-- Value of a binary32 bit pattern with sign bit 0 and biased exponent at
least 127, i.e. a normal number of magnitude at least one:
`(2^23 + mantissa) * 2^(exponent - 127) / 2^23`. Together with `f32exactB`
(which certifies that this division is exact) this reads the bit pattern back
as the exact real value it denotes. -/
def f32valN (bits : ℕ) : ℕ :=
  (2 ^ 23 + bits % 2 ^ 23) * 2 ^ (bits / 2 ^ 23 % 256 - 127) / 2 ^ 23

/-- The biased exponent of `bits` is at least 127 and the division performed
by `f32valN bits` leaves no remainder, so `f32valN bits` is exactly the real
number the binary32 pattern denotes. -/
def f32exactB (bits : ℕ) : Bool :=
  Nat.ble 127 (bits / 2 ^ 23 % 256) &&
    (2 ^ 23 + bits % 2 ^ 23) * 2 ^ (bits / 2 ^ 23 % 256 - 127) % 2 ^ 23 == 0

/-- Tail-recursive list length (accumulator form); `listLen_eq` below proves it
equal to `List.length`. Used inside the embedded definitions so that concrete
byte streams evaluate without deep non-tail recursion. -/
def lenAcc {α : Type} : List α → ℕ → ℕ
  | [], acc => acc
  | _ :: rest, acc => lenAcc rest (acc + 1)

/-- Length of a list, as the Python sources' `len(...)`. -/
def listLen {α : Type} (l : List α) : ℕ := lenAcc l 0

/-- Concatenation of the binary32 encodings of a flat list of coordinates:
the loop of `create_point_data` in `src/create_test_e57_files.py` and
`struct.pack('<9f', ...)` in the codec script. -/
def encodeCoords : List ℕ → List ℕ
  | [] => []
  | v :: rest => pack_f32 v ++ encodeCoords rest

/-- Conditional-add alignment, the shape of `src/create_test_e57_files.py`
lines 116-119 (used there with `u = 8`). -/
def alignCond (v u : ℕ) : ℕ := if v % u ≠ 0 then v + (u - v % u) else v

/-- Modular-padding alignment, the shape of `src/test_data/create_test_files.py`
line 132 (used there with `u = 1024`). -/
def alignModPad (v u : ℕ) : ℕ := v + (u - v % u) % u

/-- Ceiling-division alignment, the shape of
`src/test_data/create_test_e57_codec_fixed.py` lines 25 and 74. -/
def alignCeilDiv (v u : ℕ) : ℕ := (v + u - 1) / u * u

/-- Is `p` a prefix of `s`? -/
def isPrefixOfL : List Char → List Char → Bool
  | [], _ => true
  | _ :: _, [] => false
  | p :: ps, c :: cs => p == c && isPrefixOfL ps cs

/-- Does `pat` occur in `s`? -/
def containsSub : List Char → List Char → Bool
  | [], pat => pat.isEmpty
  | c :: cs, pat => isPrefixOfL pat (c :: cs) || containsSub cs pat

/-- Does the string `pat` occur in `s`? -/
def containsSubstr (s pat : String) : Bool := containsSub s.data pat.data

/-- The suffix of `s` after the first occurrence of `pat` (`none` if absent). -/
def afterSub : List Char → List Char → Option (List Char)
  | [], _ => none
  | c :: cs, pat =>
    if isPrefixOfL pat (c :: cs) then some (List.drop pat.length (c :: cs))
    else afterSub cs pat

/-- Parse a leading run of decimal digits into a number. -/
def digitsVal : List Char → ℕ → ℕ
  | [], acc => acc
  | c :: cs, acc => if c.isDigit then digitsVal cs (acc * 10 + (c.toNat - 48)) else acc

/-- Value of the first `fileOffset="..."` attribute of an XML string. -/
def fileOffsetAttr (s : String) : Option ℕ :=
  (afterSub s.data ("fileOffset=\"".data)).map (fun r => digitsVal r 0)

/-- Replacement `str.replace(pat, rep)` on character lists (all occurrences, left to right). -/
def replaceFrom : ℕ → List Char → List Char → List Char → List Char
  | 0, s, _, _ => s
  | _ + 1, [], _, _ => []
  | fuel + 1, c :: cs, pat, rep =>
    if isPrefixOfL pat (c :: cs) then
      rep ++ replaceFrom fuel (List.drop pat.length (c :: cs)) pat rep
    else
      c :: replaceFrom fuel cs pat rep

/-- Python `s.replace(pat, rep)` for nonempty `pat`. -/
def strReplace (s pat rep : String) : String :=
  String.mk (replaceFrom (listLen s.data + 1) s.data pat.data rep.data)

/-- Leading run of alphanumeric characters (an XML tag name). -/
def takeName : List Char → List Char
  | [] => []
  | c :: cs => if c.isAlphanum then c :: takeName cs else []

/-- Tag-balance scanner for XML syntax well-formedness: handles the XML
declaration, comments, CDATA sections, opening, closing and self-closing
tags; `stack` holds the currently open element names. -/
def xmlOk : ℕ → List Char → List String → Bool
  | 0, _, _ => false
  | _ + 1, [], stack => stack.isEmpty
  | fuel + 1, '<' :: rest, stack =>
    if isPrefixOfL ("!--".data) rest then
      match afterSub rest ("-->".data) with
      | some r => xmlOk fuel r stack
      | none => false
    else if isPrefixOfL ("![CDATA[".data) rest then
      match afterSub rest ("]]>".data) with
      | some r => xmlOk fuel r stack
      | none => false
    else if isPrefixOfL ("?".data) rest then
      match afterSub rest ("?>".data) with
      | some r => xmlOk fuel r stack
      | none => false
    else if isPrefixOfL ("/".data) rest then
      match stack with
      | [] => false
      | top :: stk =>
        let body := (rest.drop 1).takeWhile (fun c => c != '>')
        match (rest.drop 1).dropWhile (fun c => c != '>') with
        | [] => false
        | _ :: r3 => if String.mk body == top then xmlOk fuel r3 stk else false
    else
      let body := rest.takeWhile (fun c => c != '>')
      let nm := takeName rest
      match rest.dropWhile (fun c => c != '>') with
      | [] => false
      | _ :: r3 =>
        if nm.isEmpty then false
        else if body.any (fun c => c == '<') then false
        else if body.getLast? == some '/' then xmlOk fuel r3 stack
        else xmlOk fuel r3 (String.mk nm :: stack)
  | fuel + 1, _ :: rest, stack => xmlOk fuel rest stack

/-- XML syntax well-formedness of a string: balanced, properly terminated markup. -/
def xmlWellFormed (s : String) : Bool := xmlOk (listLen s.data + 1) s.data []

namespace CreateTestE57Files

/-- Header bytes of `create_e57_header` from `src/create_test_e57_files.py` lines 10-36: signature,
version 1.0, placeholder `filePhysicalLength` and `xmlLength`, `xmlOffset = 48`,
`pageSize = 1024`. -/
def create_e57_header : List ℕ :=
  strBytes "ASTM-E57" ++ le32 1 ++ le32 0 ++ le64 0 ++ le64 48 ++ le64 0 ++ le64 1024

/-- Constant `xml_offset` returned by `create_e57_header` (line 27). -/
def xml_offset : ℕ := 48

/-- First third of the document of `create_compressed_vector_xml` (lines 38-72);
the single Python literal is split into three chunks here (concatenated below)
so that every concrete evaluation stays within kernel recursion limits. -/
def xml_chunk1 : String :=
  "<?xml version=\"1.0\" encoding=\"UTF-8\"?>\n<e57Root type=\"Structure\" xmlns=\"http://www.astm.org/COMMIT/E57/2010-e57-v1.0\">\n    <formatName type=\"String\"><![CDATA[ASTM E57 3D Imaging Data File]]></formatName>\n    <guid type=\"String\"><![CDATA[\x7b12345678-1234-5678-9ABC-123456789ABC\x7d]]></guid>\n    <versionMajor type=\"Integer\">1</versionMajor>\n    <versionMinor type=\"Integer\">0</versionMinor>\n    <e57LibraryVersion type=\"String\"><![CDATA[Test Library 1.0]]></e57LibraryVersion>\n    <coordinateMetadata type=\"String\"><![CDATA[Test coordinate metadata]]></coordinateMetadata>\n    <data3D type=\"Vector\" allowHeterogeneousChildren=\"1\">\n        <vectorChild type=\"Structure\">"

/-- Second third of the `create_compressed_vector_xml` document. -/
def xml_chunk2 : String :=
  "\n            <guid type=\"String\"><![CDATA[\x7b87654321-4321-8765-CBA9-987654321CBA\x7d]]></guid>\n            <name type=\"String\"><![CDATA[Test Point Cloud]]></name>\n            <description type=\"String\"><![CDATA[Test point cloud with CompressedVector]]></description>\n            <points type=\"CompressedVector\" fileOffset=\"1248\" recordCount=\"3\">\n                <prototype type=\"Structure\">\n                    <cartesianX type=\"Float\" precision=\"single\" minimum=\"-1000.0\" maximum=\"1000.0\"/>\n                    <cartesianY type=\"Float\" precision=\"single\" minimum=\"-1000.0\" maximum=\"1000.0\"/>\n                    <cartesianZ type=\"Float\" precision=\"single\" minimum=\"-1"

/-- Last third of the `create_compressed_vector_xml` document. -/
def xml_chunk3 : String :=
  "000.0\" maximum=\"1000.0\"/>\n                </prototype>\n                <codecs type=\"Vector\" allowHeterogeneousChildren=\"1\">\n                    <vectorChild type=\"CompressedVectorNode\" recordCount=\"3\" fileOffset=\"1248\">\n                        <prototype type=\"Structure\">\n                            <cartesianX type=\"Float\" precision=\"single\"/>\n                            <cartesianY type=\"Float\" precision=\"single\"/>\n                            <cartesianZ type=\"Float\" precision=\"single\"/>\n                        </prototype>\n                    </vectorChild>\n                </codecs>\n            </points>\n        </vectorChild>\n    </data3D>\n</e57Root>"

/-- The document of `create_compressed_vector_xml` (lines 38-72), with the two
interpolations `str(48 + 1200)` evaluated to `1248`. -/
def create_compressed_vector_xml : String := xml_chunk1 ++ xml_chunk2 ++ xml_chunk3

/-- The document of `create_malformed_xml` (lines 74-93), with `str(48 + 800)`
evaluated to `848`. -/
def create_malformed_xml : String :=
  "<?xml version=\"1.0\" encoding=\"UTF-8\"?>\n<e57Root type=\"Structure\" xmlns=\"http://www.astm.org/COMMIT/E57/2010-e57-v1.0\">\n    <formatName type=\"String\"><![CDATA[ASTM E57 3D Imaging Data File]]></formatName>\n    <data3D type=\"Vector\" allowHeterogeneousChildren=\"1\">\n        <vectorChild type=\"Structure\">\n            <points type=\"CompressedVector\" fileOffset=\"848\" recordCount=\"invalid_count\">\n                <prototype type=\"Structure\">\n                    <cartesianX type=\"Float\" precision=\"single\"/>\n                    <!-- Missing cartesianY and cartesianZ -->\n                </prototype>\n                <codecs type=\"Vector\" allowHeterogeneousChildren=\"1\">\n                    <!-- Missing CompressedVectorNode -->\n                </codecs>\n            </points>\n        </vectorChild>\n    </data3D>\n</e57Root>"

/-- Payload of `create_point_data` (lines 95-107): nine coordinates, each packed with
`struct.pack('<f', ...)` and concatenated. -/
def create_point_data : List ℕ := encodeCoords [1, 2, 3, 4, 5, 6, 7, 8, 9]

/-- The binary-offset computation of `create_e57_file` (lines 116-119):
8-byte conditional-add alignment after header plus XML. -/
def binary_offset (xml_length : ℕ) : ℕ :=
  let b := xml_offset + xml_length
  if b % 8 ≠ 0 then b + (8 - b % 8) else b

/-- Total `file_length` of `create_e57_file` (line 122). -/
def file_length (xml_length payload_len : ℕ) : ℕ := binary_offset xml_length + payload_len

/-- The header back-patch of `create_e57_file` (lines 124-128):
`header[16:24] = pack('<Q', file_length)` and `header[32:40] = pack('<Q', xml_length)`. -/
def patch_header (h : List ℕ) (fileLen xmlLen : ℕ) : List ℕ :=
  setBytes (setBytes h 16 (le64 fileLen)) 32 (le64 xmlLen)

/-- The byte stream emitted by `create_e57_file` (lines 109-144): patched header,
XML, zero padding up to the binary offset, point data. -/
def create_e57_file (xml_content point_data : List ℕ) : List ℕ :=
  let xmlLen := listLen xml_content
  let binOff := binary_offset xmlLen
  let header := patch_header create_e57_header (file_length xmlLen (listLen point_data)) xmlLen
  header ++ xml_content ++ List.replicate (binOff - (listLen header + xmlLen)) 0 ++ point_data

/-- Bytes of `test_data/compressedvector_uncompressed_data.e57` (and of the
byte-identical `test_data/test_real_points.e57`). -/
def valid_file : List ℕ :=
  create_e57_file (strBytes create_compressed_vector_xml) create_point_data

/-- Bytes of `test_data/malformed_compressedvector.e57`. -/
def malformed_file : List ℕ :=
  create_e57_file (strBytes create_malformed_xml) create_point_data

end CreateTestE57Files

namespace TestDataCreateTestFiles

/-- Header bytes of `create_e57_header` from `src/test_data/create_test_files.py` lines 10-36
(identical bytes to the other builder). -/
def create_e57_header : List ℕ :=
  strBytes "ASTM-E57" ++ le32 1 ++ le32 0 ++ le64 0 ++ le64 48 ++ le64 0 ++ le64 1024

/-- First third of the document of `create_compressed_vector_xml` (lines 38-72);
split into three chunks, concatenated below. -/
def xml_chunk1 : String :=
  "<?xml version=\"1.0\" encoding=\"UTF-8\"?>\n<e57Root type=\"Structure\">\n    <formatName type=\"String\">ASTM E57 3D Imaging Data File</formatName>\n    <guid type=\"String\">\x7b12345678-1234-1234-1234-123456789012\x7d</guid>\n    <versionMajor type=\"Integer\">1</versionMajor>\n    <versionMinor type=\"Integer\">0</versionMinor>\n    <e57LibraryVersion type=\"String\">Sprint1.2-Test</e57LibraryVersion>\n    <coordinateMetadata type=\"String\">Test coordinate system</coordinateMetadata>\n    <data3D type=\"Vector\" allowHeterogeneousChildren=\"1\">\n        <vectorChild type=\"Structure\">\n            <guid type=\"S"

/-- Second third of the `create_compressed_vector_xml` document. -/
def xml_chunk2 : String :=
  "tring\">\x7b87654321-4321-4321-4321-210987654321\x7d</guid>\n            <name type=\"String\">Test CompressedVector Scan</name>\n            <description type=\"String\">Test scan with CompressedVector structure</description>\n            <points type=\"CompressedVector\" fileOffset=\"0\" recordCount=\"3\">\n                <prototype type=\"Structure\">\n                    <cartesianX type=\"Float\" precision=\"single\"/>\n                    <cartesianY type=\"Float\" precision=\"single\"/>\n                    <cartesianZ type=\"Float\" precision=\"single\"/>\n                </prototype>\n                <codecs"

/-- Last third of the `create_compressed_vector_xml` document. -/
def xml_chunk3 : String :=
  " type=\"Vector\" allowHeterogeneousChildren=\"1\">\n                    <vectorChild type=\"CompressedVectorNode\" recordCount=\"3\" fileOffset=\"2048\">\n                        <prototype type=\"Structure\">\n                            <cartesianX type=\"Float\" precision=\"single\"/>\n                            <cartesianY type=\"Float\" precision=\"single\"/>\n                            <cartesianZ type=\"Float\" precision=\"single\"/>\n                        </prototype>\n                    </vectorChild>\n                </codecs>\n            </points>\n        </vectorChild>\n    </data3D>\n</e57Root>"

/-- The document of `create_compressed_vector_xml` (lines 38-72). -/
def create_compressed_vector_xml : String := xml_chunk1 ++ xml_chunk2 ++ xml_chunk3

/-- The document of `create_malformed_compressed_vector_xml` (lines 74-106). -/
def create_malformed_compressed_vector_xml : String :=
  "<?xml version=\"1.0\" encoding=\"UTF-8\"?>\n<e57Root type=\"Structure\">\n    <formatName type=\"String\">ASTM E57 3D Imaging Data File</formatName>\n    <guid type=\"String\">\x7b12345678-1234-1234-1234-123456789012\x7d</guid>\n    <versionMajor type=\"Integer\">1</versionMajor>\n    <versionMinor type=\"Integer\">0</versionMinor>\n    <data3D type=\"Vector\" allowHeterogeneousChildren=\"1\">\n        <vectorChild type=\"Structure\">\n            <guid type=\"String\">\x7b87654321-4321-4321-4321-210987654321\x7d</guid>\n            <name type=\"String\">Test Malformed CompressedVector</name>\n            <points type=\"CompressedVector\" fileOffset=\"0\">\n                <prototype type=\"Structure\">\n                    <cartesianX type=\"Float\" precision=\"single\"/>\n                    <cartesianY type=\"Float\" precision=\"single\"/>\n                    <cartesianZ type=\"Float\" precision=\"single\"/>\n                </prototype>\n                <codecs type=\"Vector\" allowHeterogeneousChildren=\"1\">\n                    <vectorChild type=\"CompressedVectorNode\">\n                        <!-- Missing recordCount attribute -->\n                        <prototype type=\"Structure\">\n                            <cartesianX type=\"Float\" precision=\"single\"/>\n                            <cartesianY type=\"Float\" precision=\"single\"/>\n                            <!-- Missing cartesianZ -->\n                        </prototype>\n                    </vectorChild>\n                </codecs>\n            </points>\n        </vectorChild>\n    </data3D>\n</e57Root>"

/-- The per-point `struct.pack('<fff', x, y, z)` loop of `create_point_data`
(lines 108-120). -/
def encodePoints : List (ℕ × ℕ × ℕ) → List ℕ
  | [] => []
  | (x, y, z) :: rest => pack_f32 x ++ pack_f32 y ++ pack_f32 z ++ encodePoints rest

/-- Payload of `create_point_data` (lines 108-120). -/
def create_point_data : List ℕ := encodePoints [(1, 2, 3), (4, 5, 6), (7, 8, 9)]

/-- The byte stream emitted by `create_e57_file` (lines 122-147). Note: the
source's `struct.pack_into('<Q', header, 24, total_length)` and
`struct.pack_into('<Q', header, 40, xml_length)` write at byte offsets 24 and 40. -/
def create_e57_file (xml_data point_data : List ℕ) : List ℕ :=
  let header := create_e57_header
  let xml_offset := listLen header
  let xml_length := listLen xml_data
  let padding_needed := (1024 - (xml_offset + xml_length) % 1024) % 1024
  let binary_offset := xml_offset + xml_length + padding_needed
  let total_length := binary_offset + listLen point_data
  let patched := setBytes (setBytes header 24 (le64 total_length)) 40 (le64 xml_length)
  patched ++ xml_data ++ List.replicate padding_needed 0 ++ point_data

/-- Bytes of this script's `test_data/compressedvector_uncompressed_data.e57`. -/
def valid_file : List ℕ :=
  create_e57_file (strBytes create_compressed_vector_xml) create_point_data

/-- Bytes of this script's `test_data/malformed_compressedvector.e57`. -/
def malformed_file : List ℕ :=
  create_e57_file (strBytes create_malformed_compressed_vector_xml) create_point_data

end TestDataCreateTestFiles

namespace CodecFixed

/-- Constant `xml_offset` of `create_e57_with_bitpack_codec` (line 17). -/
def xml_offset : ℕ := 48

/-- Constant `page_size` (line 19). -/
def page_size : ℕ := 1024

/-- Constant `estimated_xml_size` (line 23). -/
def estimated_xml_size : ℕ := 1600

/-- Page alignment by ceiling division (lines 25 and 74). -/
def align_page (v : ℕ) : ℕ := (v + page_size - 1) / page_size * page_size

/-- First-pass binary offset estimate (lines 24-25): `roundUp(48 + 1600, 1024) = 2048`,
the value interpolated into the XML document below. -/
def first_binary_offset : ℕ := align_page (xml_offset + estimated_xml_size)

/-- First half of the f-string document of `create_e57_with_bitpack_codec`
(lines 28-57) with `{binary_offset}` evaluated to `2048` and `{{`/`}}`
unescaped; split into two chunks, concatenated below. -/
def xml_chunk1 : String :=
  "<?xml version=\"1.0\" encoding=\"UTF-8\"?>\n<e57Root type=\"Structure\" xmlns=\"http://www.astm.org/COMMIT/E57/2010-e57-v1.0\">\n    <formatName type=\"String\">ASTM E57 3D Imaging Data File</formatName>\n    <guid type=\"String\">\x7b12345678-1234-1234-1234-123456789ABC\x7d</guid>\n    <versionMajor type=\"Integer\">1</versionMajor>\n    <versionMinor type=\"Integer\">0</versionMinor>\n    <e57LibraryVersion type=\"String\">Sprint2.1-Test</e57LibraryVersion>\n    <coordinateMetadata type=\"String\">Test coordinate system</coordinateMetadata>\n    <data3D type=\"Vector\" allowHeterogeneousChildren=\"1\">\n        <vectorChild type=\"Structure\">\n            <guid type=\"String\">\x7b87654321-4321-4321-4321-210987654321\x7d</guid>\n            <name type=\"String\">Test Point Cloud</name>\n            <description type=\"String\">Test point cloud data for"

/-- Second half of the f-string document. -/
def xml_chunk2 : String :=
  " Sprint 2.1</description>\n            <points type=\"CompressedVector\" fileOffset=\"2048\" recordCount=\"3\">\n                <prototype type=\"Structure\">\n                    <cartesianX type=\"Float\" precision=\"single\"/>\n                    <cartesianY type=\"Float\" precision=\"single\"/>\n                    <cartesianZ type=\"Float\" precision=\"single\"/>\n                </prototype>\n                <codecs type=\"Vector\">\n                    <vector type=\"CompressedVectorNode\">\n                        <bitPackCodec type=\"Structure\"/>\n                        <recordCount type=\"Integer\">3</recordCount>\n                        <binarySection type=\"String\">test_binary_section</binarySection>\n                    </vector>\n                </codecs>\n            </points>\n        </vectorChild>\n    </data3D>\n</e57Root>"

/-- The full f-string document of `create_e57_with_bitpack_codec` (lines 28-57). -/
def xml_content : String := xml_chunk1 ++ xml_chunk2

/-- Payload bytes of `struct.pack('<9f', 1, ..., 9)` (lines 66-69). -/
def point_data : List ℕ := encodeCoords [1, 2, 3, 4, 5, 6, 7, 8, 9]

/-- The recomputed binary offset (lines 72-74), from the actual XML length. -/
def binary_offset : ℕ := align_page (xml_offset + listLen (strBytes xml_content))

/-- Total `file_physical_length` (line 75). -/
def file_physical_length : ℕ := binary_offset + listLen point_data

/-- The `xml_content.replace(...)` call of lines 78-79: it searches for
`fileOffset="1648"` (the unaligned estimate) and substitutes the recomputed
offset. -/
def xml_content2 : String :=
  strReplace xml_content
    ("fileOffset=\"" ++ toString (xml_offset + estimated_xml_size) ++ "\"")
    ("fileOffset=\"" ++ toString binary_offset ++ "\"")

/-- Recomputed `xml_length` after re-encoding (line 81). -/
def xml_length2 : ℕ := listLen (strBytes xml_content2)

/-- The byte stream of `test_data/e57_bitpack_codec_test_fixed.e57`
(lines 87-107): header fields written singly, XML, padding, point data. -/
def bitpack_file : List ℕ :=
  strBytes "ASTM-E57" ++ le32 1 ++ le32 0 ++ le64 file_physical_length ++ le64 xml_offset ++
    le64 xml_length2 ++ le64 page_size ++ strBytes xml_content2 ++
    List.replicate (binary_offset - (xml_offset + xml_length2)) 0 ++ point_data

/-- The document of `create_e57_with_unsupported_codec` (lines 119-140). -/
def unsupported_xml : String :=
  "<?xml version=\"1.0\" encoding=\"UTF-8\"?>\n<e57Root type=\"Structure\" xmlns=\"http://www.astm.org/COMMIT/E57/2010-e57-v1.0\">\n    <formatName type=\"String\">ASTM E57 3D Imaging Data File</formatName>\n    <data3D type=\"Vector\" allowHeterogeneousChildren=\"1\">\n        <vectorChild type=\"Structure\">\n            <points type=\"CompressedVector\" recordCount=\"3\">\n                <prototype type=\"Structure\">\n                    <cartesianX type=\"Float\" precision=\"single\"/>\n                    <cartesianY type=\"Float\" precision=\"single\"/>\n                    <cartesianZ type=\"Float\" precision=\"single\"/>\n                </prototype>\n                <codecs type=\"Vector\">\n                    <vector type=\"CompressedVectorNode\">\n                        <zLibCodec type=\"Structure\"/>\n                        <recordCount type=\"Integer\">3</recordCount>\n                        <binarySection type=\"String\">test_binary_section</binarySection>\n                    </vector>\n                </codecs>\n            </points>\n        </vectorChild>\n    </data3D>\n</e57Root>"

/-- The byte stream of `test_data/e57_unsupported_codec_test_fixed.e57`
(lines 148-159): header then XML, no binary section. -/
def unsupported_file : List ℕ :=
  strBytes "ASTM-E57" ++ le32 1 ++ le32 0 ++ le64 (48 + listLen (strBytes unsupported_xml)) ++
    le64 48 ++ le64 (listLen (strBytes unsupported_xml)) ++ le64 1024 ++ strBytes unsupported_xml

end CodecFixed

theorem lenAcc_eq {α : Type} : ∀ (l : List α) (acc : ℕ), lenAcc l acc = l.length + acc := by
  intro l
  induction l with
  | nil => intro acc; simp [lenAcc]
  | cons a as ih => intro acc; simp only [lenAcc, ih, List.length_cons]; omega

theorem listLen_eq {α : Type} (l : List α) : listLen l = l.length := by
  simp [listLen, lenAcc_eq]

theorem strBytes_append (s t : String) : strBytes (s ++ t) = strBytes s ++ strBytes t := by
  simp [strBytes, String.data_append]

theorem length_le64 (n : ℕ) : (le64 n).length = 8 := rfl

theorem length_le32 (n : ℕ) : (le32 n).length = 4 := rfl

theorem pack_f32_length (n : ℕ) : (pack_f32 n).length = 4 := rfl

theorem readLE64_append_left (l1 l2 : List ℕ) (off : ℕ) (h : off + 8 ≤ l1.length) :
    readLE64 (l1 ++ l2) off = readLE64 l1 off := by
  unfold readLE64
  rw [List.getD_append _ _ _ _ (by omega), List.getD_append _ _ _ _ (by omega),
    List.getD_append _ _ _ _ (by omega), List.getD_append _ _ _ _ (by omega),
    List.getD_append _ _ _ _ (by omega), List.getD_append _ _ _ _ (by omega),
    List.getD_append _ _ _ _ (by omega), List.getD_append _ _ _ _ (by omega)]

theorem alignCond_eq (v u : ℕ) (hu : 0 < u) : alignCond v u = alignModPad v u := by
  unfold alignCond alignModPad
  rcases Nat.eq_zero_or_pos (v % u) with h | h
  · rw [if_neg (by omega), h, Nat.sub_zero, Nat.mod_self]
    omega
  · have hr : v % u < u := Nat.mod_lt _ hu
    rw [if_pos (by omega), Nat.mod_eq_of_lt (show u - v % u < u by omega)]

theorem alignCeilDiv_eq (v u : ℕ) (hu : 0 < u) : alignCeilDiv v u = alignModPad v u := by
  unfold alignCeilDiv alignModPad
  have hdm := Nat.div_add_mod v u
  have hr : v % u < u := Nat.mod_lt _ hu
  rcases Nat.eq_zero_or_pos (v % u) with h | h
  · have h2 : v + u - 1 = (u - 1) + u * (v / u) := by omega
    rw [h2, Nat.add_mul_div_left _ _ hu, Nat.div_eq_of_lt (show u - 1 < u by omega), h,
      Nat.sub_zero, Nat.mod_self]
    have h3 : (0 + v / u) * u = u * (v / u) := by ring
    omega
  · have hx : u * (v / u + 1) = u * (v / u) + u := by ring
    have h2 : v + u - 1 = (v % u - 1) + u * (v / u + 1) := by omega
    rw [h2, Nat.add_mul_div_left _ _ hu, Nat.div_eq_of_lt (show v % u - 1 < u by omega),
      Nat.mod_eq_of_lt (show u - v % u < u by omega)]
    have h3 : (0 + (v / u + 1)) * u = u * (v / u + 1) := by ring
    omega

theorem alignModPad_mod (v u : ℕ) (hu : 0 < u) : alignModPad v u % u = 0 := by
  unfold alignModPad
  have hdm := Nat.div_add_mod v u
  have hr : v % u < u := Nat.mod_lt _ hu
  rcases Nat.eq_zero_or_pos (v % u) with h | h
  · rw [h, Nat.sub_zero, Nat.mod_self, Nat.add_zero]
    exact h
  · rw [Nat.mod_eq_of_lt (show u - v % u < u by omega)]
    have h2 : v + (u - v % u) = u * (v / u + 1) := by
      have hx : u * (v / u + 1) = u * (v / u) + u := by ring
      omega
    rw [h2]
    exact Nat.mul_mod_right u _

theorem alignModPad_ge (v u : ℕ) : v ≤ alignModPad v u := by
  unfold alignModPad
  omega

theorem alignModPad_eq_self_iff (v u : ℕ) (hu : 0 < u) : alignModPad v u = v ↔ u ∣ v := by
  unfold alignModPad
  rw [Nat.dvd_iff_mod_eq_zero]
  have hr : v % u < u := Nat.mod_lt _ hu
  constructor
  · intro h
    rcases Nat.eq_zero_or_pos (v % u) with h' | h'
    · exact h'
    · rw [Nat.mod_eq_of_lt (show u - v % u < u by omega)] at h
      omega
  · intro h
    rw [h, Nat.sub_zero, Nat.mod_self]
    omega

theorem isPrefixOfL_take : ∀ (pat s : List Char), isPrefixOfL pat s = isPrefixOfL pat (s.take pat.length) := by
  intro pat
  induction pat with
  | nil => intro s; rfl
  | cons p ps ih =>
    intro s
    cases s with
    | nil => rfl
    | cons c cs =>
      simp only [isPrefixOfL, List.length_cons, List.take_succ_cons]
      rw [ih cs]

theorem isPrefixOfL_window (pat : List Char) (c : Char) (l1 l2 : List Char) :
    isPrefixOfL pat (c :: (l1 ++ l2)) = isPrefixOfL pat (c :: (l1 ++ l2.take (pat.length - 1))) := by
  cases pat with
  | nil => rfl
  | cons p ps =>
    rw [isPrefixOfL_take (p :: ps) (c :: (l1 ++ l2)),
      isPrefixOfL_take (p :: ps) (c :: (l1 ++ l2.take ((p :: ps).length - 1)))]
    have hlen : (p :: ps).length - 1 = ps.length := rfl
    rw [hlen]
    simp only [List.length_cons, List.take_succ_cons, List.take_append_eq_append_take,
      List.take_take]
    rw [min_eq_left (by omega)]

theorem containsSub_append_false (pat : List Char) : ∀ (c1 c2 : List Char),
    containsSub (c1 ++ c2.take (pat.length - 1)) pat = false →
    containsSub c2 pat = false →
    containsSub (c1 ++ c2) pat = false := by
  intro c1
  induction c1 with
  | nil =>
    intro c2 _ h2
    simpa using h2
  | cons c cs ih =>
    intro c2 h1 h2
    rw [List.cons_append] at h1 ⊢
    simp only [containsSub, Bool.or_eq_false_iff] at h1 ⊢
    constructor
    · rw [isPrefixOfL_window pat c cs c2]
      exact h1.1
    · exact ih c2 h1.2 h2

theorem replaceFrom_id (pat rep : List Char) : ∀ (fuel : ℕ) (s : List Char),
    containsSub s pat = false → replaceFrom fuel s pat rep = s := by
  intro fuel
  induction fuel with
  | zero => intro s _; rfl
  | succ fuel ih =>
    intro s h
    cases s with
    | nil => rfl
    | cons c cs =>
      simp only [containsSub, Bool.or_eq_false_iff] at h
      simp only [replaceFrom, h.1, Bool.false_eq_true, if_false]
      rw [ih cs h.2]

theorem strReplace_id (s pat rep : String) (h : containsSub s.data pat.data = false) :
    strReplace s pat rep = s := by
  unfold strReplace
  rw [replaceFrom_id _ _ _ _ h]

theorem A_xml_listLen : listLen (strBytes CreateTestE57Files.create_compressed_vector_xml) = 1991 := by
  have c1 : listLen (strBytes CreateTestE57Files.xml_chunk1) = 664 := by decide
  have c2 : listLen (strBytes CreateTestE57Files.xml_chunk2) = 664 := by decide
  have c3 : listLen (strBytes CreateTestE57Files.xml_chunk3) = 663 := by decide
  rw [listLen_eq] at c1 c2 c3 ⊢
  simp only [CreateTestE57Files.create_compressed_vector_xml, strBytes_append,
    List.length_append, c1, c2, c3]

theorem B_xml_listLen : listLen (strBytes TestDataCreateTestFiles.create_compressed_vector_xml) = 1755 := by
  have c1 : listLen (strBytes TestDataCreateTestFiles.xml_chunk1) = 585 := by decide
  have c2 : listLen (strBytes TestDataCreateTestFiles.xml_chunk2) = 585 := by decide
  have c3 : listLen (strBytes TestDataCreateTestFiles.xml_chunk3) = 585 := by decide
  rw [listLen_eq] at c1 c2 c3 ⊢
  simp only [TestDataCreateTestFiles.create_compressed_vector_xml, strBytes_append,
    List.length_append, c1, c2, c3]

theorem C_xml_listLen : listLen (strBytes CodecFixed.xml_content) = 1623 := by
  have c1 : listLen (strBytes CodecFixed.xml_chunk1) = 811 := by decide
  have c2 : listLen (strBytes CodecFixed.xml_chunk2) = 812 := by decide
  rw [listLen_eq] at c1 c2 ⊢
  simp only [CodecFixed.xml_content, strBytes_append, List.length_append, c1, c2]

theorem A_point_listLen : listLen CreateTestE57Files.create_point_data = 36 := by decide

theorem B_point_listLen : listLen TestDataCreateTestFiles.create_point_data = 36 := by decide

theorem A_patch_length (fl xl : ℕ) :
    (CreateTestE57Files.patch_header CreateTestE57Files.create_e57_header fl xl).length = 48 := rfl

theorem A_valid_file_eq : CreateTestE57Files.valid_file =
    CreateTestE57Files.patch_header CreateTestE57Files.create_e57_header 2076 1991
      ++ strBytes CreateTestE57Files.create_compressed_vector_xml
      ++ List.replicate 1 0 ++ CreateTestE57Files.create_point_data := by
  have h1 : CreateTestE57Files.file_length 1991 36 = 2076 := by decide
  have h2 : listLen (CreateTestE57Files.patch_header CreateTestE57Files.create_e57_header 2076 1991) = 48 := by decide
  have h3 : CreateTestE57Files.binary_offset 1991 = 2040 := by decide
  simp only [CreateTestE57Files.valid_file, CreateTestE57Files.create_e57_file, A_xml_listLen,
    A_point_listLen, h1, h2, h3]

theorem B_patched_eq : TestDataCreateTestFiles.valid_file =
    setBytes (setBytes TestDataCreateTestFiles.create_e57_header 24 (le64 2084)) 40 (le64 1755)
      ++ strBytes TestDataCreateTestFiles.create_compressed_vector_xml
      ++ List.replicate 245 0 ++ TestDataCreateTestFiles.create_point_data := by
  have h0 : listLen TestDataCreateTestFiles.create_e57_header = 48 := by decide
  simp only [TestDataCreateTestFiles.valid_file, TestDataCreateTestFiles.create_e57_file,
    B_xml_listLen, B_point_listLen, h0]

theorem C_pattern_eq :
    ("fileOffset=\"" ++ toString (CodecFixed.xml_offset + CodecFixed.estimated_xml_size) ++ "\"")
      = "fileOffset=\"1648\"" := by decide

theorem C_replace_noop : CodecFixed.xml_content2 = CodecFixed.xml_content := by
  unfold CodecFixed.xml_content2
  rw [C_pattern_eq]
  apply strReplace_id
  have hdata : CodecFixed.xml_content.data = CodecFixed.xml_chunk1.data ++ CodecFixed.xml_chunk2.data := by
    simp [CodecFixed.xml_content, String.data_append]
  rw [hdata]
  apply containsSub_append_false
  · decide
  · decide

theorem C_binoff : CodecFixed.binary_offset = 2048 := by
  rw [CodecFixed.binary_offset, C_xml_listLen]
  decide

theorem C_xml_length2 : CodecFixed.xml_length2 = 1623 := by
  rw [CodecFixed.xml_length2, C_replace_noop]
  exact C_xml_listLen

theorem C_file_physical_length : CodecFixed.file_physical_length = 2084 := by
  rw [CodecFixed.file_physical_length, C_binoff]
  decide

theorem C_bitpack_eq : CodecFixed.bitpack_file =
    (strBytes "ASTM-E57" ++ le32 1 ++ le32 0 ++ le64 2084 ++ le64 48 ++ le64 1623 ++ le64 1024)
      ++ (strBytes CodecFixed.xml_content ++ List.replicate 377 0 ++ CodecFixed.point_data) := by
  simp only [CodecFixed.bitpack_file, C_file_physical_length, C_xml_length2, C_replace_noop,
    C_binoff, CodecFixed.xml_offset, CodecFixed.page_size, List.append_assoc]

theorem A_binoff_eq (L : ℕ) : CreateTestE57Files.binary_offset L = alignCond (48 + L) 8 := rfl

theorem A_binoff_ge (L : ℕ) : 48 + L ≤ CreateTestE57Files.binary_offset L := by
  rw [A_binoff_eq, alignCond_eq _ _ (by norm_num)]
  exact alignModPad_ge _ _

theorem A_valid_field16 : readLE64 CreateTestE57Files.valid_file 16 = 2076 := by
  rw [A_valid_file_eq,
    readLE64_append_left _ _ _ (by simp only [List.length_append, A_patch_length]; omega),
    readLE64_append_left _ _ _ (by simp only [List.length_append, A_patch_length]; omega),
    readLE64_append_left _ _ _ (by simp only [A_patch_length]; omega)]
  decide

theorem A_valid_field24 : readLE64 CreateTestE57Files.valid_file 24 = 48 := by
  rw [A_valid_file_eq,
    readLE64_append_left _ _ _ (by simp only [List.length_append, A_patch_length]; omega),
    readLE64_append_left _ _ _ (by simp only [List.length_append, A_patch_length]; omega),
    readLE64_append_left _ _ _ (by simp only [A_patch_length]; omega)]
  decide

theorem A_valid_field32 : readLE64 CreateTestE57Files.valid_file 32 = 1991 := by
  rw [A_valid_file_eq,
    readLE64_append_left _ _ _ (by simp only [List.length_append, A_patch_length]; omega),
    readLE64_append_left _ _ _ (by simp only [List.length_append, A_patch_length]; omega),
    readLE64_append_left _ _ _ (by simp only [A_patch_length]; omega)]
  decide

theorem A_valid_field40 : readLE64 CreateTestE57Files.valid_file 40 = 1024 := by
  rw [A_valid_file_eq,
    readLE64_append_left _ _ _ (by simp only [List.length_append, A_patch_length]; omega),
    readLE64_append_left _ _ _ (by simp only [List.length_append, A_patch_length]; omega),
    readLE64_append_left _ _ _ (by simp only [A_patch_length]; omega)]
  decide

theorem A_valid_length : CreateTestE57Files.valid_file.length = 2076 := by
  rw [A_valid_file_eq]
  simp only [List.length_append, A_patch_length, List.length_replicate]
  rw [← listLen_eq (strBytes CreateTestE57Files.create_compressed_vector_xml), A_xml_listLen,
    ← listLen_eq CreateTestE57Files.create_point_data, A_point_listLen]

theorem A_malformed_field16 : readLE64 CreateTestE57Files.malformed_file 16 = 908 := by decide

theorem A_malformed_field24 : readLE64 CreateTestE57Files.malformed_file 24 = 48 := by decide

theorem A_malformed_field32 : readLE64 CreateTestE57Files.malformed_file 32 = 817 := by decide

theorem A_malformed_field40 : readLE64 CreateTestE57Files.malformed_file 40 = 1024 := by decide

theorem B_header_length : TestDataCreateTestFiles.create_e57_header.length = 48 := rfl

theorem B_patch_length (a b : ℕ) :
    (setBytes (setBytes TestDataCreateTestFiles.create_e57_header 24 (le64 a)) 40 (le64 b)).length = 48 := rfl

theorem B_valid_field16 : readLE64 TestDataCreateTestFiles.valid_file 16 = 0 := by
  rw [B_patched_eq,
    readLE64_append_left _ _ _ (by simp only [List.length_append, B_patch_length]; omega),
    readLE64_append_left _ _ _ (by simp only [List.length_append, B_patch_length]; omega),
    readLE64_append_left _ _ _ (by simp only [B_patch_length]; omega)]
  decide

theorem B_valid_field24 : readLE64 TestDataCreateTestFiles.valid_file 24 = 2084 := by
  rw [B_patched_eq,
    readLE64_append_left _ _ _ (by simp only [List.length_append, B_patch_length]; omega),
    readLE64_append_left _ _ _ (by simp only [List.length_append, B_patch_length]; omega),
    readLE64_append_left _ _ _ (by simp only [B_patch_length]; omega)]
  decide

theorem B_valid_field32 : readLE64 TestDataCreateTestFiles.valid_file 32 = 0 := by
  rw [B_patched_eq,
    readLE64_append_left _ _ _ (by simp only [List.length_append, B_patch_length]; omega),
    readLE64_append_left _ _ _ (by simp only [List.length_append, B_patch_length]; omega),
    readLE64_append_left _ _ _ (by simp only [B_patch_length]; omega)]
  decide

theorem B_valid_field40 : readLE64 TestDataCreateTestFiles.valid_file 40 = 1755 := by
  rw [B_patched_eq,
    readLE64_append_left _ _ _ (by simp only [List.length_append, B_patch_length]; omega),
    readLE64_append_left _ _ _ (by simp only [List.length_append, B_patch_length]; omega),
    readLE64_append_left _ _ _ (by simp only [B_patch_length]; omega)]
  decide

theorem B_valid_length : TestDataCreateTestFiles.valid_file.length = 2084 := by
  rw [B_patched_eq]
  simp only [List.length_append, B_patch_length, List.length_replicate]
  rw [← listLen_eq (strBytes TestDataCreateTestFiles.create_compressed_vector_xml), B_xml_listLen,
    ← listLen_eq TestDataCreateTestFiles.create_point_data, B_point_listLen]

theorem C_header48_length :
    (strBytes "ASTM-E57" ++ le32 1 ++ le32 0 ++ le64 2084 ++ le64 48 ++ le64 1623 ++ le64 1024).length = 48 := rfl

theorem C_bitpack_field16 : readLE64 CodecFixed.bitpack_file 16 = 2084 := by
  rw [C_bitpack_eq, readLE64_append_left _ _ _ (by rw [C_header48_length]; norm_num)]
  decide

theorem C_bitpack_field24 : readLE64 CodecFixed.bitpack_file 24 = 48 := by
  rw [C_bitpack_eq, readLE64_append_left _ _ _ (by rw [C_header48_length]; norm_num)]
  decide

theorem C_bitpack_field32 : readLE64 CodecFixed.bitpack_file 32 = 1623 := by
  rw [C_bitpack_eq, readLE64_append_left _ _ _ (by rw [C_header48_length]; norm_num)]
  decide

theorem C_bitpack_field40 : readLE64 CodecFixed.bitpack_file 40 = 1024 := by
  rw [C_bitpack_eq, readLE64_append_left _ _ _ (by rw [C_header48_length])]
  decide

theorem C_unsup_field16 : readLE64 CodecFixed.unsupported_file 16 = 1102 := by decide

theorem C_unsup_field24 : readLE64 CodecFixed.unsupported_file 24 = 48 := by decide

theorem C_unsup_field32 : readLE64 CodecFixed.unsupported_file 32 = 1054 := by decide

theorem C_unsup_field40 : readLE64 CodecFixed.unsupported_file 40 = 1024 := by decide

theorem encodePoints_length : ∀ pts : List (ℕ × ℕ × ℕ),
    (TestDataCreateTestFiles.encodePoints pts).length = 12 * pts.length := by
  intro pts
  induction pts with
  | nil => rfl
  | cons p rest ih =>
    obtain ⟨x, y, z⟩ := p
    simp only [TestDataCreateTestFiles.encodePoints, List.length_append, ih, pack_f32_length,
      List.length_cons]
    omega

theorem encodeCoords_length : ∀ vals : List ℕ, (encodeCoords vals).length = 4 * vals.length := by
  intro vals
  induction vals with
  | nil => rfl
  | cons v rest ih =>
    simp only [encodeCoords, List.length_append, ih, pack_f32_length, List.length_cons]
    omega

theorem A_prefix_length_2040 :
    (CreateTestE57Files.patch_header CreateTestE57Files.create_e57_header 2076 1991
      ++ strBytes CreateTestE57Files.create_compressed_vector_xml
      ++ List.replicate 1 0).length = 2040 := by
  simp only [List.length_append, A_patch_length, List.length_replicate]
  rw [← listLen_eq (strBytes CreateTestE57Files.create_compressed_vector_xml), A_xml_listLen]

/-- Claim C1: the spec's `patch(header, filePhysicalLength, xmlLength)` is required to
write the two values at byte offsets 16 and 32 of the 48-byte header and leave every
other byte unchanged. `create_e57_file` in `src/create_test_e57_files.py` does exactly
that (first block of conjuncts, evaluated at the shipped fixture's values 2076/1991),
but the same patch step in `src/test_data/create_test_files.py` (`struct.pack_into` at
offsets 24 and 40) instead overwrites the xmlOffset and pageSize fields, leaving the
filePhysicalLength and xmlLength placeholders at zero (second block, evaluated at that
script's fixture values 2084/1755). -/
theorem C1_patch_field_offsets :
    (readLE64 (CreateTestE57Files.patch_header CreateTestE57Files.create_e57_header 2076 1991) 16 = 2076
      ∧ readLE64 (CreateTestE57Files.patch_header CreateTestE57Files.create_e57_header 2076 1991) 24 = 48
      ∧ readLE64 (CreateTestE57Files.patch_header CreateTestE57Files.create_e57_header 2076 1991) 32 = 1991
      ∧ readLE64 (CreateTestE57Files.patch_header CreateTestE57Files.create_e57_header 2076 1991) 40 = 1024
      ∧ (CreateTestE57Files.patch_header CreateTestE57Files.create_e57_header 2076 1991).take 16
          = CreateTestE57Files.create_e57_header.take 16
      ∧ ((CreateTestE57Files.patch_header CreateTestE57Files.create_e57_header 2076 1991).drop 24).take 8
          = (CreateTestE57Files.create_e57_header.drop 24).take 8
      ∧ (CreateTestE57Files.patch_header CreateTestE57Files.create_e57_header 2076 1991).drop 40
          = CreateTestE57Files.create_e57_header.drop 40)
    ∧ (readLE64 (setBytes (setBytes TestDataCreateTestFiles.create_e57_header 24 (le64 2084)) 40 (le64 1755)) 16 = 0
      ∧ readLE64 (setBytes (setBytes TestDataCreateTestFiles.create_e57_header 24 (le64 2084)) 40 (le64 1755)) 24 = 2084
      ∧ readLE64 (setBytes (setBytes TestDataCreateTestFiles.create_e57_header 24 (le64 2084)) 40 (le64 1755)) 32 = 0
      ∧ readLE64 (setBytes (setBytes TestDataCreateTestFiles.create_e57_header 24 (le64 2084)) 40 (le64 1755)) 40 = 1755) := by
  decide

/-- Claim C2: the u64 little-endian field at byte offset 24 (xmlOffset) of every
emitted header is required to equal 48. It does in both files of
`src/create_test_e57_files.py` and both files of
`src/test_data/create_test_e57_codec_fixed.py`, but the file emitted by
`src/test_data/create_test_files.py` carries its total length 2084 there, because that
script's header back-patch writes the total length at byte offset 24. -/
theorem C2_xmlOffset_field :
    readLE64 TestDataCreateTestFiles.valid_file 24 = 2084 ∧ (2084 : ℕ) ≠ 48
    ∧ readLE64 CreateTestE57Files.valid_file 24 = 48
    ∧ readLE64 CreateTestE57Files.malformed_file 24 = 48
    ∧ readLE64 CodecFixed.bitpack_file 24 = 48
    ∧ readLE64 CodecFixed.unsupported_file 24 = 48 :=
  ⟨B_valid_field24, by decide, A_valid_field24, A_malformed_field24, C_bitpack_field24,
    C_unsup_field24⟩

/-- Claim C3: re-deriving the layout from the four decoded header fields must
reproduce the binaryOffset and totalLength used by the writer. It does for
`src/create_test_e57_files.py` (first block: roundUp(48+1991, 8) = 2040 = the
binary offset used, and the decoded filePhysicalLength equals the 2076 bytes
emitted), but fails for `src/test_data/create_test_files.py` (second block): its
mispatched header decodes to filePhysicalLength 0, xmlOffset 2084 and xmlLength 0,
so the re-derived binaryOffset is roundUp(2084+0, 1024) = 3072 instead of the 2048
used, and the re-derived totalLength 0 instead of the 2084 bytes emitted. -/
theorem C3_roundtrip :
    (alignCond (readLE64 CreateTestE57Files.valid_file 24 + readLE64 CreateTestE57Files.valid_file 32) 8
        = CreateTestE57Files.binary_offset 1991
      ∧ readLE64 CreateTestE57Files.valid_file 16 = CreateTestE57Files.valid_file.length
      ∧ CreateTestE57Files.valid_file.length = CreateTestE57Files.file_length 1991 36)
    ∧ (readLE64 TestDataCreateTestFiles.valid_file 16 = 0
      ∧ readLE64 TestDataCreateTestFiles.valid_file 24 = 2084
      ∧ readLE64 TestDataCreateTestFiles.valid_file 32 = 0
      ∧ alignModPad (readLE64 TestDataCreateTestFiles.valid_file 24
          + readLE64 TestDataCreateTestFiles.valid_file 32) 1024 = 3072
      ∧ alignModPad (48 + 1755) 1024 = 2048
      ∧ TestDataCreateTestFiles.valid_file.length = 2084
      ∧ (3072 : ℕ) ≠ 2048 ∧ (0 : ℕ) ≠ 2084) := by
  refine ⟨⟨?_, ?_, ?_⟩, B_valid_field16, B_valid_field24, B_valid_field32, ?_, by decide,
    B_valid_length, by decide, by decide⟩
  · rw [A_valid_field24, A_valid_field32]
    decide
  · rw [A_valid_field16, A_valid_length]
  · rw [A_valid_length]
    decide
  · rw [B_valid_field24, B_valid_field32]
    decide

/-- Claim C4 counterexample: in the well-formed fixture of
`src/create_test_e57_files.py`, the `fileOffset` attribute embedded in the
CompressedVector XML is the fixed estimate 1248 (`str(48 + 1200)`), while the
binary offset actually used to place the payload is 2040, so the attribute does
not equal the LayoutPlan's binaryOffset: the claim is false on this fixture. -/
theorem C4_counterexample :
    fileOffsetAttr CreateTestE57Files.create_compressed_vector_xml = some 1248
    ∧ CreateTestE57Files.binary_offset
        (listLen (strBytes CreateTestE57Files.create_compressed_vector_xml)) = 2040
    ∧ fileOffsetAttr CreateTestE57Files.create_compressed_vector_xml
        ≠ some (CreateTestE57Files.binary_offset
            (listLen (strBytes CreateTestE57Files.create_compressed_vector_xml))) := by
  have h1 : fileOffsetAttr CreateTestE57Files.create_compressed_vector_xml = some 1248 := by
    decide
  have h2 : CreateTestE57Files.binary_offset
      (listLen (strBytes CreateTestE57Files.create_compressed_vector_xml)) = 2040 := by
    rw [A_xml_listLen]
    decide
  refine ⟨h1, h2, ?_⟩
  rw [h1, h2]
  decide

/-- Claim C4 as amended: no reconciliation of the embedded `fileOffset` against the
layout plan is performed. In the default variant the attribute is the fixed estimate
1248 while the plan's binaryOffset is 2040; in the codec_fixed variant the
`replace` call searches for the unaligned first-pass estimate `fileOffset="1648"`,
which does not occur in the document, so it is a no-op, and the embedded attribute
2048 (the page-aligned first-pass estimate) happens to coincide with the recomputed
binaryOffset for the actual XML length. -/
theorem C4_amended :
    fileOffsetAttr CreateTestE57Files.create_compressed_vector_xml = some 1248
    ∧ CreateTestE57Files.binary_offset
        (listLen (strBytes CreateTestE57Files.create_compressed_vector_xml)) = 2040
    ∧ (1248 : ℕ) ≠ 2040
    ∧ CodecFixed.xml_content2 = CodecFixed.xml_content
    ∧ fileOffsetAttr CodecFixed.xml_content2 = some 2048
    ∧ CodecFixed.binary_offset = 2048 := by
  refine ⟨by decide, ?_, by decide, C_replace_noop, ?_, C_binoff⟩
  · rw [A_xml_listLen]
    decide
  · rw [C_replace_noop]
    decide

/-- Claim C5 counterexample: for the well-formed fixture of
`src/create_test_e57_files.py`, the emitted header's xmlOffset plus xmlLength is
48 + 1991 = 2039, while the planned binary offset is the 8-byte-aligned 2040, so
`header.xmlOffset + header.xmlLength == binaryOffset` fails (one padding byte
separates the XML from the binary section). -/
theorem C5_counterexample :
    readLE64 CreateTestE57Files.valid_file 24 + readLE64 CreateTestE57Files.valid_file 32 = 2039
    ∧ CreateTestE57Files.binary_offset 1991 = 2040
    ∧ readLE64 CreateTestE57Files.valid_file 24 + readLE64 CreateTestE57Files.valid_file 32
        ≠ CreateTestE57Files.binary_offset 1991 := by
  have h1 : readLE64 CreateTestE57Files.valid_file 24 + readLE64 CreateTestE57Files.valid_file 32
      = 2039 := by
    rw [A_valid_field24, A_valid_field32]
  refine ⟨h1, by decide, ?_⟩
  rw [h1]
  decide

/-- Claim C5 as amended: the emitted headers of `src/create_test_e57_files.py` and of
the bitpack fixture of `src/test_data/create_test_e57_codec_fixed.py` satisfy
`roundUp(xmlOffset + xmlLength, alignmentUnit) == binaryOffset` (equality with the
raw sum holds only when that sum is already aligned, which it is not for the shipped
fixtures) and `filePhysicalLength == binaryOffset + 36` payload bytes; the fixture of
`src/test_data/create_test_files.py` satisfies neither relation because its length
fields are mispatched (filePhysicalLength field reads 0). -/
theorem C5_amended :
    (alignModPad (readLE64 CreateTestE57Files.valid_file 24
        + readLE64 CreateTestE57Files.valid_file 32) 8 = CreateTestE57Files.binary_offset 1991
      ∧ readLE64 CreateTestE57Files.valid_file 16 = CreateTestE57Files.binary_offset 1991 + 36)
    ∧ (alignModPad (readLE64 CreateTestE57Files.malformed_file 24
        + readLE64 CreateTestE57Files.malformed_file 32) 8 = CreateTestE57Files.binary_offset 817
      ∧ readLE64 CreateTestE57Files.malformed_file 16 = CreateTestE57Files.binary_offset 817 + 36)
    ∧ (alignModPad (readLE64 CodecFixed.bitpack_file 24
        + readLE64 CodecFixed.bitpack_file 32) 1024 = CodecFixed.binary_offset
      ∧ readLE64 CodecFixed.bitpack_file 16 = CodecFixed.binary_offset + 36)
    ∧ (readLE64 TestDataCreateTestFiles.valid_file 16 = 0
      ∧ readLE64 TestDataCreateTestFiles.valid_file 24
          + readLE64 TestDataCreateTestFiles.valid_file 32 ≠ 48 + 1755
      ∧ (0 : ℕ) ≠ 2084) := by
  refine ⟨⟨?_, ?_⟩, ⟨?_, ?_⟩, ⟨?_, ?_⟩, B_valid_field16, ?_, by decide⟩
  · rw [A_valid_field24, A_valid_field32]
    decide
  · rw [A_valid_field16]
    decide
  · rw [A_malformed_field24, A_malformed_field32]
    decide
  · rw [A_malformed_field16]
    decide
  · rw [C_bitpack_field24, C_bitpack_field32, C_binoff]
    decide
  · rw [C_bitpack_field16, C_binoff]
  · rw [B_valid_field24, B_valid_field32]
    decide

/-- Claim C6: for every `xmlLength` and every positive alignment unit, the three
alignment implementations of the source (conditional add in
`src/create_test_e57_files.py`, modular padding in
`src/test_data/create_test_files.py`, ceiling division in
`src/test_data/create_test_e57_codec_fixed.py`) all compute
`(48 + L) + ((u - (48 + L) % u) % u)`; the result is divisible by the unit, and
equals `48 + L` exactly when that sum is already a multiple of the unit.
`binary_offset` of the default script is the conditional-add shape at unit 8 and
`align_page` of the codec script is the ceiling-division shape at unit 1024. -/
theorem C6_alignment (L u : ℕ) (hu : 0 < u) :
    alignCond (48 + L) u = 48 + L + (u - (48 + L) % u) % u
    ∧ alignModPad (48 + L) u = 48 + L + (u - (48 + L) % u) % u
    ∧ alignCeilDiv (48 + L) u = 48 + L + (u - (48 + L) % u) % u
    ∧ alignCond (48 + L) u % u = 0
    ∧ (alignCond (48 + L) u = 48 + L ↔ u ∣ (48 + L))
    ∧ CreateTestE57Files.binary_offset L = alignCond (48 + L) 8
    ∧ CodecFixed.align_page (48 + L) = alignCeilDiv (48 + L) 1024 := by
  have h1 := alignCond_eq (48 + L) u hu
  have h2 := alignCeilDiv_eq (48 + L) u hu
  refine ⟨?_, rfl, ?_, ?_, ?_, rfl, rfl⟩
  · rw [h1]
    rfl
  · rw [h2]
    rfl
  · rw [h1]
    exact alignModPad_mod _ _ hu
  · rw [h1]
    exact alignModPad_eq_self_iff _ _ hu

/-- Witness for C6 at the shipped fixture's values `L = 1991`, `u = 8`. -/
theorem C6_alignment_witness :
    0 < 8
    ∧ (alignCond (48 + 1991) 8 = 48 + 1991 + (8 - (48 + 1991) % 8) % 8
      ∧ alignModPad (48 + 1991) 8 = 48 + 1991 + (8 - (48 + 1991) % 8) % 8
      ∧ alignCeilDiv (48 + 1991) 8 = 48 + 1991 + (8 - (48 + 1991) % 8) % 8
      ∧ alignCond (48 + 1991) 8 % 8 = 0
      ∧ (alignCond (48 + 1991) 8 = 48 + 1991 ↔ 8 ∣ (48 + 1991))
      ∧ CreateTestE57Files.binary_offset 1991 = alignCond (48 + 1991) 8
      ∧ CodecFixed.align_page (48 + 1991) = alignCeilDiv (48 + 1991) 1024) :=
  ⟨by norm_num, C6_alignment 1991 8 (by norm_num)⟩

/-- Claim C7: for every XML byte string and payload, `create_e57_file` of
`src/create_test_e57_files.py` emits exactly the 48-byte patched header, the XML
verbatim, zero padding up to the planned binary offset, then the payload, for a
total of `file_length = binary_offset + payload` bytes; and `create_e57_file` of
`src/test_data/create_test_files.py` emits its (mispatched) 48-byte header, XML,
zero padding up to its page-aligned binary offset, then the payload, for a total
of `roundUp(48 + xmlLength, 1024) + payload` bytes. -/
theorem C7_writer_layout (xml payload : List ℕ) :
    (CreateTestE57Files.create_e57_file xml payload
        = CreateTestE57Files.patch_header CreateTestE57Files.create_e57_header
            (CreateTestE57Files.file_length xml.length payload.length) xml.length
          ++ xml
          ++ List.replicate (CreateTestE57Files.binary_offset xml.length - (48 + xml.length)) 0
          ++ payload)
    ∧ (CreateTestE57Files.patch_header CreateTestE57Files.create_e57_header
        (CreateTestE57Files.file_length xml.length payload.length) xml.length).length = 48
    ∧ 48 + xml.length + (CreateTestE57Files.binary_offset xml.length - (48 + xml.length))
        = CreateTestE57Files.binary_offset xml.length
    ∧ (CreateTestE57Files.create_e57_file xml payload).length
        = CreateTestE57Files.file_length xml.length payload.length
    ∧ CreateTestE57Files.file_length xml.length payload.length
        = CreateTestE57Files.binary_offset xml.length + payload.length
    ∧ (TestDataCreateTestFiles.create_e57_file xml payload
        = setBytes (setBytes TestDataCreateTestFiles.create_e57_header 24
            (le64 (alignModPad (48 + xml.length) 1024 + payload.length))) 40 (le64 xml.length)
          ++ xml
          ++ List.replicate ((1024 - (48 + xml.length) % 1024) % 1024) 0
          ++ payload)
    ∧ 48 + xml.length + ((1024 - (48 + xml.length) % 1024) % 1024)
        = alignModPad (48 + xml.length) 1024
    ∧ (TestDataCreateTestFiles.create_e57_file xml payload).length
        = alignModPad (48 + xml.length) 1024 + payload.length := by
  have hge := A_binoff_ge xml.length
  have hshapeA : CreateTestE57Files.create_e57_file xml payload
      = CreateTestE57Files.patch_header CreateTestE57Files.create_e57_header
          (CreateTestE57Files.file_length xml.length payload.length) xml.length
        ++ xml
        ++ List.replicate (CreateTestE57Files.binary_offset xml.length - (48 + xml.length)) 0
        ++ payload := by
    simp only [CreateTestE57Files.create_e57_file, listLen_eq, A_patch_length]
  have hshapeB : TestDataCreateTestFiles.create_e57_file xml payload
      = setBytes (setBytes TestDataCreateTestFiles.create_e57_header 24
          (le64 (alignModPad (48 + xml.length) 1024 + payload.length))) 40 (le64 xml.length)
        ++ xml
        ++ List.replicate ((1024 - (48 + xml.length) % 1024) % 1024) 0
        ++ payload := by
    simp only [TestDataCreateTestFiles.create_e57_file, listLen_eq, B_header_length, alignModPad]
  refine ⟨hshapeA, A_patch_length _ _, by omega, ?_, rfl, hshapeB, rfl, ?_⟩
  · rw [hshapeA]
    simp only [List.length_append, A_patch_length, List.length_replicate]
    unfold CreateTestE57Files.file_length
    omega
  · rw [hshapeB]
    simp only [List.length_append, B_patch_length, List.length_replicate]
    unfold alignModPad
    omega

/-- Claim C8: the Point Payload Encoder concatenates, in input order and with no
separators, the 4-byte little-endian IEEE-754 binary32 encodings of the
coordinates, so `n` points give `12 * n` bytes; the shipped nine coordinates
`(1,2,3),(4,5,6),(7,8,9)` give 36 payload bytes, placed at binary offset 2040 of
the emitted `compressedvector_uncompressed_data.e57`, and reading the payload
back as nine little-endian binary32 fields reproduces 1..9 exactly (each decoded
value is exact: biased exponent at least 127 and no dropped mantissa bits). -/
theorem C8_point_payload :
    (∀ pts : List (ℕ × ℕ × ℕ), (TestDataCreateTestFiles.encodePoints pts).length = 12 * pts.length)
    ∧ (∀ x y z : ℕ, ∀ rest : List (ℕ × ℕ × ℕ),
        TestDataCreateTestFiles.encodePoints ((x, y, z) :: rest)
          = pack_f32 x ++ pack_f32 y ++ pack_f32 z ++ TestDataCreateTestFiles.encodePoints rest)
    ∧ (∀ vals : List ℕ, (encodeCoords vals).length = 4 * vals.length)
    ∧ (∀ v : ℕ, ∀ rest : List ℕ, encodeCoords (v :: rest) = pack_f32 v ++ encodeCoords rest)
    ∧ (∀ n : ℕ, (pack_f32 n).length = 4)
    ∧ CreateTestE57Files.create_point_data.length = 36
    ∧ CreateTestE57Files.binary_offset 1991 = 2040
    ∧ CreateTestE57Files.valid_file.drop 2040 = CreateTestE57Files.create_point_data
    ∧ (List.range 9).map (fun i => f32valN (readLE32 CreateTestE57Files.create_point_data (4 * i)))
        = [1, 2, 3, 4, 5, 6, 7, 8, 9]
    ∧ (List.range 9).all (fun i => f32exactB (readLE32 CreateTestE57Files.create_point_data (4 * i)))
        = true
    ∧ TestDataCreateTestFiles.create_point_data = CreateTestE57Files.create_point_data := by
  refine ⟨encodePoints_length, fun x y z rest => rfl, encodeCoords_length, fun v rest => rfl,
    pack_f32_length, by decide, by decide, ?_, by decide, by decide, by decide⟩
  rw [A_valid_file_eq, ← A_prefix_length_2040]
  exact List.drop_left _ _

/-- Claim C9 counterexample: the malformed document of `create_malformed_xml` in
`src/create_test_e57_files.py` does contain a `<codecs ...>` element (holding only
a comment), so the claim's statement that the codecs block is omitted entirely is
false. -/
theorem C9_counterexample :
    containsSubstr CreateTestE57Files.create_malformed_xml "<codecs" = true := by decide

/-- Claim C9 as amended: the malformed document declares
`recordCount="invalid_count"`, keeps only the `cartesianX` prototype field
(no `<cartesianY` or `<cartesianZ` element), and emits an empty codecs element
with no CompressedVectorNode child (rather than omitting the codecs block), while
remaining well-formed at the XML-syntax level. -/
theorem C9_amended :
    containsSubstr CreateTestE57Files.create_malformed_xml "recordCount=\"invalid_count\"" = true
    ∧ containsSubstr CreateTestE57Files.create_malformed_xml "<cartesianX" = true
    ∧ containsSubstr CreateTestE57Files.create_malformed_xml "<cartesianY" = false
    ∧ containsSubstr CreateTestE57Files.create_malformed_xml "<cartesianZ" = false
    ∧ containsSubstr CreateTestE57Files.create_malformed_xml "<codecs" = true
    ∧ containsSubstr CreateTestE57Files.create_malformed_xml "type=\"CompressedVectorNode\"" = false
    ∧ xmlWellFormed CreateTestE57Files.create_malformed_xml = true := by
  refine ⟨by decide, by decide, by decide, by decide, by decide, by decide, by decide⟩

/-- Claim C10 counterexample: the header emitted by
`src/test_data/create_test_files.py` carries 1755 (the XML length, mispatched into
byte offset 40) in its pageSize field, not the constant 1024. -/
theorem C10_counterexample :
    readLE64 TestDataCreateTestFiles.valid_file 40 = 1755 ∧ (1755 : ℕ) ≠ 1024 :=
  ⟨B_valid_field40, by decide⟩

/-- Claim C10 as amended: the headers emitted by `src/create_test_e57_files.py` and
`src/test_data/create_test_e57_codec_fixed.py` carry the constant 1024 in the
pageSize field, while the mispatched header of `src/test_data/create_test_files.py`
carries the XML length there; in the default variant the binary offset is computed
by the fixed 8-byte conditional-add rule, independent of the pageSize value (the
resulting offset 2040 is not page-aligned), whereas the codec_fixed variant derives
its padding from the pageSize (its binary offset is page-aligned). -/
theorem C10_pageSize :
    readLE64 CreateTestE57Files.valid_file 40 = 1024
    ∧ readLE64 CreateTestE57Files.malformed_file 40 = 1024
    ∧ readLE64 CodecFixed.bitpack_file 40 = 1024
    ∧ readLE64 CodecFixed.unsupported_file 40 = 1024
    ∧ readLE64 TestDataCreateTestFiles.valid_file 40 = 1755
    ∧ CreateTestE57Files.binary_offset 1991 = alignCond (48 + 1991) 8
    ∧ CreateTestE57Files.binary_offset 1991 % 1024 ≠ 0
    ∧ CodecFixed.binary_offset
        = alignCeilDiv (48 + listLen (strBytes CodecFixed.xml_content)) CodecFixed.page_size
    ∧ CodecFixed.binary_offset % 1024 = 0 := by
  refine ⟨A_valid_field40, A_malformed_field40, C_bitpack_field40, C_unsup_field40,
    B_valid_field40, rfl, by decide, rfl, ?_⟩
  rw [C_binoff]
